import Mathlib

/-!
Shallow embedding of `src/backend.py` (AayuCare POC API backend).

The backend is a FastAPI app with three endpoints:
* GET /api/health (`health`),
* POST /api/speech-to-text (`speech_to_text`), and
* POST /api/find-doctor (`find_doctor`).

The two AI providers (Sarvam speech-to-text, Gemini generative language)
are external black boxes; their responses (and the possibility that a call
to them raises) are inputs of the embedded endpoint functions.  Python
strings are modelled as Lean `String`s, with the Python string operations
(`lower`, `strip`, `split`, `replace`, `startswith`, substring `in`) given
explicit char-list implementations below so that everything reduces in the
kernel; `lower` is modelled ASCII-wise (all keyword matching in the source
involves ASCII keywords only).  Python floats carried through the code are
modelled as `Rat` (no float arithmetic is performed by the source beyond
parsing and passing values through), and `float(...)` parsing, an external
builtin, is a parameter `pf : String → Option Rat` of the functions that
use it (`none` models `float` raising on a non-numeric string).
-/

/-- Python truthiness of an `os.getenv` result: `None` and the empty
string are falsy, every other string is truthy. -/
def pyTruthy : Option String → Bool
  | none => false
  | some s => s != ""

/-- Characters of `s` begin with the characters of `pre`
(Python `str.startswith` on char lists). -/
def listStartsWith : List Char → List Char → Bool
  | _, [] => true
  | [], _ :: _ => false
  | a :: as, b :: bs => a == b && listStartsWith as bs

/-- Python `pre in s` (substring occurrence) on char lists. -/
def listContainsSub (pat : List Char) : List Char → Bool
  | [] => listStartsWith [] pat
  | c :: rest => listStartsWith (c :: rest) pat || listContainsSub pat rest

/-- Python `str.replace(pat, rep)`: replace all non-overlapping
occurrences left to right.  Fuel-based so that recursion is structural;
`listReplace` below supplies fuel equal to the length of the string,
which is enough because every step consumes at least one character
(the source only ever replaces non-empty patterns). -/
def listReplaceAux (pat rep : List Char) : Nat → List Char → List Char
  | _, [] => []
  | 0, s => s
  | fuel + 1, c :: rest =>
    if listStartsWith (c :: rest) pat then
      rep ++ listReplaceAux pat rep fuel ((c :: rest).drop pat.length)
    else
      c :: listReplaceAux pat rep fuel rest

/-- Python `str.replace` on char lists. -/
def listReplace (pat rep s : List Char) : List Char :=
  listReplaceAux pat rep s.length s

/-- Python `str.lower()`, ASCII model. -/
def pyLower (s : String) : String :=
  ⟨s.data.map Char.toLower⟩

/-- Python `str.strip()`: drop leading and trailing whitespace. -/
def pyStrip (s : String) : String :=
  ⟨((s.data.dropWhile Char.isWhitespace).reverse.dropWhile Char.isWhitespace).reverse⟩

/-- Python `str.startswith(pre)`. -/
def pyStartswith (s pre : String) : Bool :=
  listStartsWith s.data pre.data

/-- Python `pat in s` (case-sensitive substring test). -/
def strContains (s pat : String) : Bool :=
  listContainsSub pat.data s.data

/-- Python `str.replace(pat, rep)`. -/
def pyReplace (s pat rep : String) : String :=
  ⟨listReplace pat.data rep.data s.data⟩

/-- Python `text.split("\n")` on char lists: split at every newline,
keeping empty pieces (so the result is always non-empty). -/
def splitLinesAux : List Char → List (List Char)
  | [] => [[]]
  | c :: rest =>
    if c == '\n' then
      [] :: splitLinesAux rest
    else
      match splitLinesAux rest with
      | [] => [[c]]
      | l :: ls => (c :: l) :: ls

/-- Python `text.split("\n")`. -/
def pySplitLines (text : String) : List String :=
  (splitLinesAux text.data).map (fun l => ⟨l⟩)

/-- Model of FastAPI `HTTPException(status_code=..., detail=...)`. -/
structure HTTPException where
  status_code : Nat
  detail : String
deriving DecidableEq, Repr

/-- A Python exception reaching one of the endpoints' `except Exception`
handlers: either an `HTTPException` raised inside the `try` block, or any
other exception (network error, JSON error, attribute error, ...),
carrying its `str(e)` text. -/
inductive PyExc where
  | httpExc (e : HTTPException)
  | other (msg : String)
deriving DecidableEq, Repr

/-- Python `str(e)`.  Starlette's `HTTPException.__str__` renders as
`"{status_code}: {detail}"`; for other exceptions we carry the message. -/
def pyStr : PyExc → String
  | .httpExc e => toString e.status_code ++ ": " ++ e.detail
  | .other msg => msg

/-!  ### GET /api/health  (backend.py lines 59-67) -/

/-- Response body of GET /api/health. -/
structure HealthResponse where
  status : String
  message : String
  gemini_configured : Bool
  sarvam_configured : Bool
deriving DecidableEq, Repr

/-- The `health` endpoint: a pure function of the two environment keys
(`GEMINI_API_KEY`, `SARVAM_API_KEY` as read by `os.getenv` at startup);
`bool(KEY)` is Python truthiness. -/
def health (gemini_api_key sarvam_api_key : Option String) : HealthResponse :=
  { status := "healthy"
    message := "AayuCare POC API is running!"
    gemini_configured := pyTruthy gemini_api_key
    sarvam_configured := pyTruthy sarvam_api_key }

/-!  ### POST /api/speech-to-text  (backend.py lines 71-125) -/

/-- The Sarvam provider's HTTP response as seen by the handler:
`status_code` and raw body `text`, plus the JSON fields the handler reads
after a 200 (`result.get("transcript", "")`, `result.get("language_code",
"en")`; `none` models an absent key). -/
structure SarvamResponse where
  status_code : Nat
  text : String
  transcript : Option String
  language_code : Option String
deriving DecidableEq, Repr

/-- Success body of POST /api/speech-to-text. -/
structure SttResult where
  success : Bool
  text : String
  language : String
deriving DecidableEq, Repr

/-- The `try:` block of `speech_to_text` (backend.py lines 84-119).
`pr` is the outcome of reading the upload and calling the provider:
`.error e` models any exception raised up to and including
`requests.post` / `response.json()`.  On a non-200 status the block
raises `HTTPException(response.status_code, "Sarvam API error: " + body)`
— note that this raise happens *inside* the `try`. -/
def sttTryBlock (pr : Except PyExc SarvamResponse) : Except PyExc SttResult :=
  match pr with
  | .error e => .error e
  | .ok resp =>
    if resp.status_code ≠ 200 then
      .error (.httpExc ⟨resp.status_code, "Sarvam API error: " ++ resp.text⟩)
    else
      .ok { success := true
            text := resp.transcript.getD ""
            language := resp.language_code.getD "en" }

/-- The `speech_to_text` endpoint.  The key check precedes the `try`
block, so its `HTTPException` propagates; every exception raised inside
the `try` block (including the handler's own non-200 `HTTPException`,
which Python's `except Exception` also catches) is converted to
`HTTPException(500, "Failed to convert speech to text: " + str(e))`. -/
def speech_to_text (sarvam_api_key : Option String)
    (pr : Except PyExc SarvamResponse) : Except HTTPException SttResult :=
  if pyTruthy sarvam_api_key = false then
    .error ⟨500, "Sarvam API key not configured. Please add SARVAM_API_KEY to .env file"⟩
  else
    match sttTryBlock pr with
    | .ok v => .ok v
    | .error e => .error ⟨500, "Failed to convert speech to text: " ++ pyStr e⟩

/-!  ### POST /api/find-doctor: extraction parsing  (backend.py lines 166-187) -/

/-- The per-request extracted fields with their defaults. -/
structure Extracted where
  symptoms : String
  location : String
  latitude : Rat
  longitude : Rat
deriving DecidableEq, Repr

/-- Defaults assigned before the parsing loop (backend.py lines 167-170). -/
def defaultExtracted : Extracted :=
  { symptoms := "General symptoms"
    location := "Mumbai"
    latitude := 19.0760
    longitude := 72.8777 }

/-- One iteration of the parsing loop (backend.py lines 172-187): strip
the line, test the case-sensitive label prefixes in order, and update the
matching field; for LATITUDE/LONGITUDE the `float(...)` call is wrapped
in `try/except: pass`, modelled by `pf` returning `none`. -/
def extractionStep (pf : String → Option Rat) (acc : Extracted) (rawLine : String) : Extracted :=
  if pyStartswith (pyStrip rawLine) "SYMPTOMS:" then
    { acc with symptoms := pyStrip (pyReplace (pyStrip rawLine) "SYMPTOMS:" "") }
  else if pyStartswith (pyStrip rawLine) "LOCATION:" then
    { acc with location := pyStrip (pyReplace (pyStrip rawLine) "LOCATION:" "") }
  else if pyStartswith (pyStrip rawLine) "LATITUDE:" then
    match pf (pyStrip (pyReplace (pyStrip rawLine) "LATITUDE:" "")) with
    | some v => { acc with latitude := v }
    | none => acc
  else if pyStartswith (pyStrip rawLine) "LONGITUDE:" then
    match pf (pyStrip (pyReplace (pyStrip rawLine) "LONGITUDE:" "")) with
    | some v => { acc with longitude := v }
    | none => acc
  else
    acc

/-- The whole parsing pass over `extraction_text.split("\n")`. -/
def parse_extraction (pf : String → Option Rat) (text : String) : Extracted :=
  (pySplitLines text).foldl (extractionStep pf) defaultExtracted

/-!  ### POST /api/find-doctor: doctor type  (backend.py lines 217-230) -/

/-- The `if/elif` chain deriving `doctor_type` from the lowercased
recommendation reply (backend.py lines 218-230). -/
def doctor_type_of (ai_response : String) : String :=
  let lower := pyLower ai_response
  if strContains lower "cardiologist" then "Cardiologist"
  else if strContains lower "dermatologist" then "Dermatologist"
  else if strContains lower "orthopedic" then "Orthopedic"
  else if strContains lower "neurologist" then "Neurologist"
  else if strContains lower "ent" || strContains lower "ear" then "ENT Specialist"
  else if strContains lower "pediatrician" then "Pediatrician"
  else "General Physician"

/-- Spec-side restatement (section 4.3 of the spec): the fixed ordered
keyword list; each entry pairs the keywords of one position with its
specialty. -/
def keywordSpecialties : List (List String × String) :=
  [(["cardiologist"], "Cardiologist"),
   (["dermatologist"], "Dermatologist"),
   (["orthopedic"], "Orthopedic"),
   (["neurologist"], "Neurologist"),
   (["ent", "ear"], "ENT Specialist"),
   (["pediatrician"], "Pediatrician")]

/-- Spec-side restatement: first keyword position that occurs as a
substring wins; no match yields "General Physician". -/
def firstKeywordSpecialty (lower : String) : List (List String × String) → String
  | [] => "General Physician"
  | (kws, specialty) :: rest =>
    if kws.any (fun k => strContains lower k) then specialty
    else firstKeywordSpecialty lower rest

/-- Spec-side doctor-type function (built from the spec's words, for
comparison with `doctor_type_of`, which is built from the source). -/
def doctor_type_spec (reply : String) : String :=
  firstKeywordSpecialty (pyLower reply) keywordSpecialties

/-!  ### POST /api/find-doctor: nearby doctors  (backend.py lines 232-290)

The maps response is modelled structurally: `Option` models a `hasattr`
check failing or the attribute being `None`/falsy, and a list models a
possibly-empty collection (an empty Python list is falsy, which the
source treats the same as a missing one). -/

/-- `chunk.maps` payload: optional `title` and `uri` attributes. -/
structure MapsData where
  title : Option String
  uri : Option String
deriving DecidableEq, Repr

/-- One grounding chunk; `maps` is absent/None when the chunk is not a
maps chunk. -/
structure GroundingChunk where
  maps : Option MapsData
deriving DecidableEq, Repr

/-- `candidate.grounding_metadata.grounding_chunks`. -/
structure GroundingMetadata where
  grounding_chunks : List GroundingChunk
deriving DecidableEq, Repr

/-- One response candidate. -/
structure Candidate where
  grounding_metadata : Option GroundingMetadata
deriving DecidableEq, Repr

/-- The maps-grounded Gemini response. -/
structure MapsResponse where
  candidates : List Candidate
deriving DecidableEq, Repr

/-- One entry of `nearby_doctors`. -/
structure DoctorInfo where
  name : String
  address : String
  distance : String
  rating : Rat
  open_ : String
  url : String
deriving DecidableEq, Repr

/-- The grounding chunks the loop iterates over: first candidate's
grounding metadata's chunks, or nothing at any missing/empty level
(backend.py lines 251-261). -/
def groundingChunksOf (resp : MapsResponse) : List GroundingChunk :=
  match resp.candidates with
  | [] => []
  | candidate :: _ =>
    match candidate.grounding_metadata with
    | none => []
    | some grounding => grounding.grounding_chunks

/-- The `doctor_info` dict built for a chunk whose `maps` attribute is
present and truthy (backend.py lines 263-277); chunks without it are
skipped. -/
def chunk_to_doctor (location : String) (ch : GroundingChunk) : Option DoctorInfo :=
  ch.maps.map (fun m =>
    { name := m.title.getD "Medical Center"
      address := location
      distance := "See Google Maps"
      rating := 4.5
      open_ := "See Google Maps for hours"
      url := m.uri.getD "" })

/-- `nearby_doctors` as extracted from grounding (`grounding_chunks[:5]`,
then the per-chunk filter). -/
def extract_nearby (location : String) (resp : MapsResponse) : List DoctorInfo :=
  ((groundingChunksOf resp).take 5).filterMap (chunk_to_doctor location)

/-- The synthetic fallback entry (backend.py lines 281-290). -/
def fallback_doctor (doctor_type location : String) : DoctorInfo :=
  { name := "Search " ++ doctor_type ++ " in " ++ location
    address := location
    distance := "Click to search"
    rating := 0
    open_ := "Search on Google Maps"
    url := "https://www.google.com/maps/search/" ++ doctor_type ++ "+near+"
             ++ pyReplace location " " "+" }

/-- Final `nearby_doctors` value: the extracted list, or the single
fallback entry when it is empty (backend.py lines 279-290). -/
def nearby_doctors_final (doctor_type location : String) (resp : MapsResponse) : List DoctorInfo :=
  let nearby := extract_nearby location resp
  if nearby.isEmpty then [fallback_doctor doctor_type location] else nearby

/-!  ### POST /api/find-doctor: the endpoint  (backend.py lines 129-305) -/

/-- Success body of POST /api/find-doctor. -/
structure FindDoctorResult where
  success : Bool
  doctor_type : String
  recommendation : String
  location : String
  symptoms : String
  nearby_doctors : List DoctorInfo
deriving DecidableEq, Repr

/-- The `try:` block of `find_doctor` (backend.py lines 146-299): three
sequential provider calls (extraction, recommendation, maps grounding),
each of which may raise (`.error`), with the pure parsing between them.
`pf` models Python `float`. -/
def fdTryBlock (pf : String → Option Rat)
    (r1 r2 : Except PyExc String) (r3 : Except PyExc MapsResponse) :
    Except PyExc FindDoctorResult :=
  match r1 with
  | .error e => .error e
  | .ok extraction_text =>
    let ex := parse_extraction pf extraction_text
    match r2 with
    | .error e => .error e
    | .ok ai_response =>
      let dt := doctor_type_of ai_response
      match r3 with
      | .error e => .error e
      | .ok maps_response =>
        .ok { success := true
              doctor_type := dt
              recommendation := ai_response
              location := ex.location
              symptoms := ex.symptoms
              nearby_doctors := nearby_doctors_final dt ex.location maps_response }

/-- The `find_doctor` endpoint: key check first (its `HTTPException`
propagates), then the `try` block with every exception converted to
`HTTPException(500, "Failed to analyze symptoms: " + str(e))`. -/
def find_doctor (gemini_api_key : Option String) (pf : String → Option Rat)
    (r1 r2 : Except PyExc String) (r3 : Except PyExc MapsResponse) :
    Except HTTPException FindDoctorResult :=
  if pyTruthy gemini_api_key = false then
    .error ⟨500, "Gemini API key not configured. Please add GEMINI_API_KEY to .env file"⟩
  else
    match fdTryBlock pf r1 r2 r3 with
    | .ok v => .ok v
    | .error e => .error ⟨500, "Failed to analyze symptoms: " ++ pyStr e⟩



/-!  ## Helper lemmas -/

/-- A parsing-loop step leaves `symptoms` unchanged when the stripped line
does not start with "SYMPTOMS:". -/
theorem extractionStep_symptoms (pf : String → Option Rat) (acc : Extracted) (l : String)
    (h : pyStartswith (pyStrip l) "SYMPTOMS:" = false) :
    (extractionStep pf acc l).symptoms = acc.symptoms := by
  unfold extractionStep
  rw [h]
  simp only [Bool.false_eq_true, if_false]
  split_ifs
  · rfl
  · split <;> rfl
  · split <;> rfl
  · rfl

/-- A parsing-loop step leaves `location` unchanged when the stripped line
does not start with "LOCATION:". -/
theorem extractionStep_location (pf : String → Option Rat) (acc : Extracted) (l : String)
    (h : pyStartswith (pyStrip l) "LOCATION:" = false) :
    (extractionStep pf acc l).location = acc.location := by
  unfold extractionStep
  rw [h]
  simp only [Bool.false_eq_true, if_false]
  split_ifs
  · rfl
  · split <;> rfl
  · split <;> rfl
  · rfl

/-- A parsing-loop step leaves `latitude` unchanged unless the stripped
line starts with "LATITUDE:" and its value parses as a float. -/
theorem extractionStep_latitude (pf : String → Option Rat) (acc : Extracted) (l : String)
    (h : pyStartswith (pyStrip l) "LATITUDE:" = true →
      pf (pyStrip (pyReplace (pyStrip l) "LATITUDE:" "")) = none) :
    (extractionStep pf acc l).latitude = acc.latitude := by
  unfold extractionStep
  split_ifs with h1 h2 h3 h4
  · rfl
  · rfl
  · rw [h h3]
  · split <;> rfl
  · rfl

/-- A parsing-loop step leaves `longitude` unchanged unless the stripped
line starts with "LONGITUDE:" and its value parses as a float. -/
theorem extractionStep_longitude (pf : String → Option Rat) (acc : Extracted) (l : String)
    (h : pyStartswith (pyStrip l) "LONGITUDE:" = true →
      pf (pyStrip (pyReplace (pyStrip l) "LONGITUDE:" "")) = none) :
    (extractionStep pf acc l).longitude = acc.longitude := by
  unfold extractionStep
  split_ifs with h1 h2 h3 h4
  · rfl
  · rfl
  · split <;> rfl
  · rw [h h4]
  · rfl

/-- The whole parsing loop leaves `symptoms` unchanged when no stripped
line starts with "SYMPTOMS:". -/
theorem foldl_symptoms (pf : String → Option Rat) (lines : List String) (acc : Extracted)
    (h : ∀ l ∈ lines, pyStartswith (pyStrip l) "SYMPTOMS:" = false) :
    (lines.foldl (extractionStep pf) acc).symptoms = acc.symptoms := by
  induction lines generalizing acc with
  | nil => rfl
  | cons l ls ih =>
    rw [List.foldl_cons, ih _ (fun x hx => h x (List.mem_cons_of_mem _ hx))]
    exact extractionStep_symptoms pf acc l (h l (List.mem_cons_self _ _))

/-- The whole parsing loop leaves `location` unchanged when no stripped
line starts with "LOCATION:". -/
theorem foldl_location (pf : String → Option Rat) (lines : List String) (acc : Extracted)
    (h : ∀ l ∈ lines, pyStartswith (pyStrip l) "LOCATION:" = false) :
    (lines.foldl (extractionStep pf) acc).location = acc.location := by
  induction lines generalizing acc with
  | nil => rfl
  | cons l ls ih =>
    rw [List.foldl_cons, ih _ (fun x hx => h x (List.mem_cons_of_mem _ hx))]
    exact extractionStep_location pf acc l (h l (List.mem_cons_self _ _))

/-- The whole parsing loop leaves `latitude` unchanged when no stripped
LATITUDE line has a parseable value. -/
theorem foldl_latitude (pf : String → Option Rat) (lines : List String) (acc : Extracted)
    (h : ∀ l ∈ lines, pyStartswith (pyStrip l) "LATITUDE:" = true →
      pf (pyStrip (pyReplace (pyStrip l) "LATITUDE:" "")) = none) :
    (lines.foldl (extractionStep pf) acc).latitude = acc.latitude := by
  induction lines generalizing acc with
  | nil => rfl
  | cons l ls ih =>
    rw [List.foldl_cons, ih _ (fun x hx => h x (List.mem_cons_of_mem _ hx))]
    exact extractionStep_latitude pf acc l (h l (List.mem_cons_self _ _))

/-- The whole parsing loop leaves `longitude` unchanged when no stripped
LONGITUDE line has a parseable value. -/
theorem foldl_longitude (pf : String → Option Rat) (lines : List String) (acc : Extracted)
    (h : ∀ l ∈ lines, pyStartswith (pyStrip l) "LONGITUDE:" = true →
      pf (pyStrip (pyReplace (pyStrip l) "LONGITUDE:" "")) = none) :
    (lines.foldl (extractionStep pf) acc).longitude = acc.longitude := by
  induction lines generalizing acc with
  | nil => rfl
  | cons l ls ih =>
    rw [List.foldl_cons, ih _ (fun x hx => h x (List.mem_cons_of_mem _ hx))]
    exact extractionStep_longitude pf acc l (h l (List.mem_cons_self _ _))

/-- Replacing a single space by a single plus is a character map. -/
theorem listReplaceAux_space_plus (fuel : Nat) (l : List Char) (hl : l.length ≤ fuel) :
    listReplaceAux [' '] ['+'] fuel l = l.map (fun c => if c = ' ' then '+' else c) := by
  induction fuel generalizing l with
  | zero =>
    cases l with
    | nil => rfl
    | cons c rest => simp at hl
  | succ n ih =>
    cases l with
    | nil => rfl
    | cons c rest =>
      have hr : rest.length ≤ n := by simpa using hl
      by_cases hc : c = ' '
      · subst hc
        simp [listReplaceAux, listStartsWith, ih rest hr]
      · simp [listReplaceAux, listStartsWith, hc, ih rest hr]

/-- `str.replace(" ", "+")` replaces every space character by a plus. -/
theorem listReplace_space_plus (l : List Char) :
    listReplace [' '] ['+'] l = l.map (fun c => if c = ' ' then '+' else c) :=
  listReplaceAux_space_plus l.length l (Nat.le_refl _)

/-- The grounding-extracted list never exceeds 5 entries. -/
theorem extract_nearby_length_le (location : String) (resp : MapsResponse) :
    (extract_nearby location resp).length ≤ 5 :=
  Nat.le_trans (List.length_filterMap_le _ _)
    (by rw [List.length_take]; exact Nat.min_le_left _ _)

/-!  ## Claim theorems -/

/-- Claim C2: for every recommendation reply string, the doctor type
returned by the handler equals the specialty of the first keyword
position in the fixed ordered list (cardiologist, dermatologist,
orthopedic, neurologist, ent/ear, pediatrician) that occurs as a
case-insensitive substring of the reply, with "General Physician" when
none occurs; in particular, a reply containing "cardiologist" in any
case resolves to "Cardiologist". -/
theorem doctor_type_first_keyword (reply : String) :
    doctor_type_of reply = doctor_type_spec reply ∧
    (strContains (pyLower reply) "cardiologist" = true →
      doctor_type_of reply = "Cardiologist") := by
  constructor
  · simp only [doctor_type_of, doctor_type_spec, keywordSpecialties, firstKeywordSpecialty,
      List.any_cons, List.any_nil, Bool.or_false]
  · intro h
    simp [doctor_type_of, h]

/-- Witness for C2 at a concrete reply in mixed case. -/
theorem doctor_type_first_keyword_witness :
    doctor_type_of "Please visit a CARDIOlogist soon." =
      doctor_type_spec "Please visit a CARDIOlogist soon." ∧
    doctor_type_of "Please visit a CARDIOlogist soon." = "Cardiologist" :=
  ⟨(doctor_type_first_keyword "Please visit a CARDIOlogist soon.").1,
   (doctor_type_first_keyword "Please visit a CARDIOlogist soon.").2 (by decide)⟩

/-- Claim C9: a reply containing none of the first four keywords but
containing "ent" as a bare substring (for example inside "patient")
resolves to "ENT Specialist", because the check has no word boundaries. -/
theorem ent_substring_no_word_boundary (reply : String)
    (h1 : strContains (pyLower reply) "cardiologist" = false)
    (h2 : strContains (pyLower reply) "dermatologist" = false)
    (h3 : strContains (pyLower reply) "orthopedic" = false)
    (h4 : strContains (pyLower reply) "neurologist" = false)
    (h5 : strContains (pyLower reply) "ent" = true) :
    doctor_type_of reply = "ENT Specialist" := by
  simp [doctor_type_of, h1, h2, h3, h4, h5]

/-- Witness for C9: "patient" contains "ent". -/
theorem ent_substring_no_word_boundary_witness :
    strContains (pyLower "The patient should rest and drink water.") "ent" = true ∧
    doctor_type_of "The patient should rest and drink water." = "ENT Specialist" :=
  ⟨by decide,
   ent_substring_no_word_boundary "The patient should rest and drink water."
     (by decide) (by decide) (by decide) (by decide) (by decide)⟩

/-- Claim C3: the extractor scans stripped lines for the case-sensitive
label prefixes; when no line carries a label, or every LATITUDE/LONGITUDE
value fails to parse as a float, the corresponding default (symptoms
"General symptoms", location "Mumbai", latitude 19.0760, longitude
72.8777) is silently kept. -/
theorem extraction_defaults_kept (pf : String → Option Rat) (text : String) :
    ((∀ l ∈ pySplitLines text, pyStartswith (pyStrip l) "SYMPTOMS:" = false) →
      (parse_extraction pf text).symptoms = "General symptoms") ∧
    ((∀ l ∈ pySplitLines text, pyStartswith (pyStrip l) "LOCATION:" = false) →
      (parse_extraction pf text).location = "Mumbai") ∧
    ((∀ l ∈ pySplitLines text, pyStartswith (pyStrip l) "LATITUDE:" = true →
        pf (pyStrip (pyReplace (pyStrip l) "LATITUDE:" "")) = none) →
      (parse_extraction pf text).latitude = 19.0760) ∧
    ((∀ l ∈ pySplitLines text, pyStartswith (pyStrip l) "LONGITUDE:" = true →
        pf (pyStrip (pyReplace (pyStrip l) "LONGITUDE:" "")) = none) →
      (parse_extraction pf text).longitude = 72.8777) := by
  refine ⟨fun h => ?_, fun h => ?_, fun h => ?_, fun h => ?_⟩
  · exact foldl_symptoms pf (pySplitLines text) defaultExtracted h
  · exact foldl_location pf (pySplitLines text) defaultExtracted h
  · exact foldl_latitude pf (pySplitLines text) defaultExtracted h
  · exact foldl_longitude pf (pySplitLines text) defaultExtracted h

/-- Witness for C3: a reply whose only label-looking line is lowercase
(so no case-sensitive label matches) and a float parser that rejects
everything keep all four defaults. -/
theorem extraction_defaults_kept_witness :
    (parse_extraction (fun _ => none) "latitude: 19.2\nHello world").symptoms
        = "General symptoms" ∧
    (parse_extraction (fun _ => none) "latitude: 19.2\nHello world").location = "Mumbai" ∧
    (parse_extraction (fun _ => none) "latitude: 19.2\nHello world").latitude = 19.0760 ∧
    (parse_extraction (fun _ => none) "latitude: 19.2\nHello world").longitude = 72.8777 :=
  ⟨(extraction_defaults_kept (fun _ => none) "latitude: 19.2\nHello world").1 (by decide),
   (extraction_defaults_kept (fun _ => none) "latitude: 19.2\nHello world").2.1 (by decide),
   (extraction_defaults_kept (fun _ => none) "latitude: 19.2\nHello world").2.2.1
     (by intro l hl hs; rfl),
   (extraction_defaults_kept (fun _ => none) "latitude: 19.2\nHello world").2.2.2
     (by intro l hl hs; rfl)⟩

/-- Claim C4: when zero usable grounding entries are extracted,
`nearby_doctors` is exactly one fallback entry whose url is the
constructed Google Maps search URL for the doctor type and location,
with every space in the location replaced by "+". -/
theorem no_grounding_single_fallback (dt loc : String) (resp : MapsResponse)
    (h : extract_nearby loc resp = []) :
    nearby_doctors_final dt loc resp = [fallback_doctor dt loc] ∧
    (fallback_doctor dt loc).url =
      "https://www.google.com/maps/search/" ++ dt ++ "+near+"
        ++ String.mk (loc.data.map (fun c => if c = ' ' then '+' else c)) := by
  constructor
  · unfold nearby_doctors_final
    rw [h]
    rfl
  · show "https://www.google.com/maps/search/" ++ dt ++ "+near+" ++ pyReplace loc " " "+" = _
    unfold pyReplace
    rw [show (" " : String).data = [' '] from rfl, show ("+" : String).data = ['+'] from rfl,
      listReplace_space_plus]

/-- Witness for C4: an empty maps response and a location with a space. -/
theorem no_grounding_single_fallback_witness :
    extract_nearby "New Delhi" ⟨[]⟩ = [] ∧
    nearby_doctors_final "ENT Specialist" "New Delhi" ⟨[]⟩ =
      [fallback_doctor "ENT Specialist" "New Delhi"] ∧
    (fallback_doctor "ENT Specialist" "New Delhi").url =
      "https://www.google.com/maps/search/ENT Specialist+near+New+Delhi" :=
  ⟨rfl, (no_grounding_single_fallback "ENT Specialist" "New Delhi" ⟨[]⟩ rfl).1, rfl⟩

/-- Claim C5: with the corresponding provider key missing (or empty, which
Python treats the same), each endpoint fails with the fixed-message 500
configuration error, whatever the provider would have answered — that is,
before any outbound call is attempted. -/
theorem missing_key_config_error (skey gkey : Option String)
    (hs : pyTruthy skey = false) (hg : pyTruthy gkey = false) :
    (∀ pr, speech_to_text skey pr =
      .error ⟨500, "Sarvam API key not configured. Please add SARVAM_API_KEY to .env file"⟩) ∧
    (∀ pf r1 r2 r3, find_doctor gkey pf r1 r2 r3 =
      .error ⟨500, "Gemini API key not configured. Please add GEMINI_API_KEY to .env file"⟩) := by
  constructor
  · intro pr
    simp [speech_to_text, hs]
  · intro pf r1 r2 r3
    simp [find_doctor, hg]

/-- Witness for C5 with both keys absent and concrete provider outcomes. -/
theorem missing_key_config_error_witness :
    pyTruthy none = false ∧
    speech_to_text none (.ok ⟨200, "", some "hello", some "hi-IN"⟩) =
      .error ⟨500, "Sarvam API key not configured. Please add SARVAM_API_KEY to .env file"⟩ ∧
    find_doctor none (fun _ => none) (.ok "a") (.ok "b") (.ok ⟨[]⟩) =
      .error ⟨500, "Gemini API key not configured. Please add GEMINI_API_KEY to .env file"⟩ :=
  ⟨rfl,
   (missing_key_config_error none none rfl rfl).1 (.ok ⟨200, "", some "hello", some "hi-IN"⟩),
   (missing_key_config_error none none rfl rfl).2 (fun _ => none) (.ok "a") (.ok "b") (.ok ⟨[]⟩)⟩

/-- Claim C6: with the key configured, every exception raised during the
call chain of either endpoint is caught at the endpoint boundary and
surfaced as a 500 whose detail embeds the exception's string
representation (including the non-200 HTTPException the speech handler
itself raises); the error result carries no partial data and no retry
happens (the endpoints are single-pass functions of one provider-outcome
tuple). -/
theorem exceptions_wrapped_as_500 (skey gkey : Option String)
    (hs : pyTruthy skey = true) (hg : pyTruthy gkey = true) :
    (∀ e : PyExc, speech_to_text skey (.error e) =
      .error ⟨500, "Failed to convert speech to text: " ++ pyStr e⟩) ∧
    (∀ resp : SarvamResponse, resp.status_code ≠ 200 →
      speech_to_text skey (.ok resp) =
        .error ⟨500, "Failed to convert speech to text: "
          ++ pyStr (.httpExc ⟨resp.status_code, "Sarvam API error: " ++ resp.text⟩)⟩) ∧
    (∀ pf r2 r3 (e : PyExc), find_doctor gkey pf (.error e) r2 r3 =
      .error ⟨500, "Failed to analyze symptoms: " ++ pyStr e⟩) ∧
    (∀ pf t1 r3 (e : PyExc), find_doctor gkey pf (.ok t1) (.error e) r3 =
      .error ⟨500, "Failed to analyze symptoms: " ++ pyStr e⟩) ∧
    (∀ pf t1 t2 (e : PyExc), find_doctor gkey pf (.ok t1) (.ok t2) (.error e) =
      .error ⟨500, "Failed to analyze symptoms: " ++ pyStr e⟩) := by
  refine ⟨fun e => ?_, fun resp hr => ?_, fun pf r2 r3 e => ?_,
    fun pf t1 r3 e => ?_, fun pf t1 t2 e => ?_⟩
  · simp [speech_to_text, sttTryBlock, hs]
  · simp [speech_to_text, sttTryBlock, hs, hr]
  · simp [find_doctor, fdTryBlock, hg]
  · simp [find_doctor, fdTryBlock, hg]
  · simp [find_doctor, fdTryBlock, hg]

/-- Witness for C6 with configured keys and concrete exceptions. -/
theorem exceptions_wrapped_as_500_witness :
    speech_to_text (some "sk") (.error (.other "Connection refused")) =
      .error ⟨500, "Failed to convert speech to text: Connection refused"⟩ ∧
    speech_to_text (some "sk") (.ok ⟨503, "busy", none, none⟩) =
      .error ⟨500, "Failed to convert speech to text: 503: Sarvam API error: busy"⟩ ∧
    find_doctor (some "gk") (fun _ => none) (.ok "SYMPTOMS: fever")
        (.ok "see a doctor") (.error (.other "quota exceeded")) =
      .error ⟨500, "Failed to analyze symptoms: quota exceeded"⟩ :=
  ⟨(exceptions_wrapped_as_500 (some "sk") (some "gk") rfl rfl).1 (.other "Connection refused"),
   (exceptions_wrapped_as_500 (some "sk") (some "gk") rfl rfl).2.1 ⟨503, "busy", none, none⟩
     (by decide),
   (exceptions_wrapped_as_500 (some "sk") (some "gk") rfl rfl).2.2.2.2 (fun _ => none)
     "SYMPTOMS: fever" "see a doctor" (.other "quota exceeded")⟩

/-- Counterexample to claim C7 as stated: a key set in the environment to
the empty string is "set", yet the reported boolean is false, because the
source computes Python truthiness `bool(KEY)`, not presence. -/
theorem health_configured_counterexample :
    (health (some "") (some "k")).gemini_configured = false ∧
    (some "" : Option String) ≠ none := by
  exact ⟨rfl, by simp⟩

/-- Claim C7 (amended): the health booleans equal whether each provider
key is set to a non-empty string (Python truthiness of the environment
value), and the rest of the response is fixed; the whole response is a
pure function of the two keys, so no network access is involved. -/
theorem health_reports_key_truthiness (g s : Option String) :
    ((health g s).gemini_configured = true ↔ ∃ v, g = some v ∧ v ≠ "") ∧
    ((health g s).sarvam_configured = true ↔ ∃ v, s = some v ∧ v ≠ "") ∧
    (health g s).status = "healthy" ∧
    (health g s).message = "AayuCare POC API is running!" := by
  refine ⟨?_, ?_, rfl, rfl⟩
  · cases g <;> simp [health, pyTruthy]
  · cases s <;> simp [health, pyTruthy]

/-- Witness for C7 (amended) at concrete keys. -/
theorem health_reports_key_truthiness_witness :
    (health (some "gk") none).gemini_configured = true ∧
    (health (some "gk") none).sarvam_configured = false :=
  ⟨(health_reports_key_truthiness (some "gk") none).1.mpr ⟨"gk", rfl, by decide⟩, rfl⟩

/-- A concrete maps response with a single usable grounding chunk, used
to exhibit that the address field varies with the request. -/
def demoMapsResponse : MapsResponse :=
  ⟨[⟨some ⟨[⟨some ⟨some "Apollo Clinic", some "https://maps.example/apollo"⟩⟩]⟩⟩]⟩

/-- Counterexample to claim C8 as stated: there is no constant that the
address field of every extracted entry equals — the handler stores the
extracted location string there, so the same grounding chunk yields
address "Delhi" for one request and "Pune" for another. -/
theorem grounded_address_not_hardcoded :
    ¬ ∃ c : String, ∀ (loc : String) (resp : MapsResponse),
      ∀ d ∈ extract_nearby loc resp, d.address = c := by
  rintro ⟨c, h⟩
  have hDelhi : extract_nearby "Delhi" demoMapsResponse =
      [{ name := "Apollo Clinic", address := "Delhi", distance := "See Google Maps",
         rating := 4.5, open_ := "See Google Maps for hours",
         url := "https://maps.example/apollo" }] := rfl
  have hPune : extract_nearby "Pune" demoMapsResponse =
      [{ name := "Apollo Clinic", address := "Pune", distance := "See Google Maps",
         rating := 4.5, open_ := "See Google Maps for hours",
         url := "https://maps.example/apollo" }] := rfl
  have h1 : "Delhi" = c :=
    h "Delhi" demoMapsResponse _ (hDelhi ▸ List.mem_singleton_self _)
  have h2 : "Pune" = c :=
    h "Pune" demoMapsResponse _ (hPune ▸ List.mem_singleton_self _)
  exact absurd (h1.trans h2.symm) (by decide)

/-- Claim C8 (amended): at most 5 entries are extracted; every extracted
entry takes its name from the grounding title (default "Medical Center")
and its url from the grounding URI (default ""), its distance, rating and
open-hours fields are the hardcoded placeholders, and its address field
is the extracted location string (a per-request placeholder, not a
hardcoded one). -/
theorem grounding_entries_shape (loc : String) (resp : MapsResponse) :
    (extract_nearby loc resp).length ≤ 5 ∧
    ∀ d ∈ extract_nearby loc resp,
      d.address = loc ∧ d.distance = "See Google Maps" ∧ d.rating = 4.5 ∧
      d.open_ = "See Google Maps for hours" ∧
      ∃ ch ∈ (groundingChunksOf resp).take 5, ∃ m : MapsData,
        ch.maps = some m ∧ d.name = m.title.getD "Medical Center" ∧
        d.url = m.uri.getD "" := by
  refine ⟨extract_nearby_length_le loc resp, fun d hd => ?_⟩
  unfold extract_nearby at hd
  rw [List.mem_filterMap] at hd
  obtain ⟨ch, hch, hmk⟩ := hd
  unfold chunk_to_doctor at hmk
  cases hm : ch.maps with
  | none => rw [hm] at hmk; simp at hmk
  | some m =>
    rw [hm] at hmk
    simp only [Option.map_some', Option.some.injEq] at hmk
    subst hmk
    exact ⟨rfl, rfl, rfl, rfl, ch, hch, m, hm, rfl, rfl⟩

/-- Witness for C8 (amended) at the concrete demo response. -/
theorem grounding_entries_shape_witness :
    ({ name := "Apollo Clinic", address := "Delhi", distance := "See Google Maps",
       rating := 4.5, open_ := "See Google Maps for hours",
       url := "https://maps.example/apollo" } : DoctorInfo).address = "Delhi" ∧
    ({ name := "Apollo Clinic", address := "Delhi", distance := "See Google Maps",
       rating := 4.5, open_ := "See Google Maps for hours",
       url := "https://maps.example/apollo" } : DoctorInfo).distance = "See Google Maps" ∧
    ({ name := "Apollo Clinic", address := "Delhi", distance := "See Google Maps",
       rating := 4.5, open_ := "See Google Maps for hours",
       url := "https://maps.example/apollo" } : DoctorInfo).rating = 4.5 ∧
    ({ name := "Apollo Clinic", address := "Delhi", distance := "See Google Maps",
       rating := 4.5, open_ := "See Google Maps for hours",
       url := "https://maps.example/apollo" } : DoctorInfo).open_
        = "See Google Maps for hours" ∧
    ∃ ch ∈ (groundingChunksOf demoMapsResponse).take 5, ∃ m : MapsData,
      ch.maps = some m ∧
      ({ name := "Apollo Clinic", address := "Delhi", distance := "See Google Maps",
         rating := 4.5, open_ := "See Google Maps for hours",
         url := "https://maps.example/apollo" } : DoctorInfo).name
          = m.title.getD "Medical Center" ∧
      ({ name := "Apollo Clinic", address := "Delhi", distance := "See Google Maps",
         rating := 4.5, open_ := "See Google Maps for hours",
         url := "https://maps.example/apollo" } : DoctorInfo).url = m.uri.getD "" :=
  (grounding_entries_shape "Delhi" demoMapsResponse).2 _ (List.mem_singleton_self _)

/-- Claim C10: every successful find-doctor response has a non-empty
`nearby_doctors` list of at most 5 entries — between 1 and 5 grounded
entries, or exactly the single fallback entry. -/
theorem nearby_doctors_length_bounds (dt loc : String) (resp : MapsResponse) :
    1 ≤ (nearby_doctors_final dt loc resp).length ∧
    (nearby_doctors_final dt loc resp).length ≤ 5 := by
  unfold nearby_doctors_final
  by_cases h : (extract_nearby loc resp).isEmpty = true
  · simp [h]
  · rw [if_neg h]
    refine ⟨?_, extract_nearby_length_le loc resp⟩
    have hne : extract_nearby loc resp ≠ [] := by
      simpa [List.isEmpty_iff] using h
    exact Nat.one_le_iff_ne_zero.mpr (fun h0 => hne (List.length_eq_zero.mp h0))

/-- Claim C1 under the code-as-written semantics: a non-200 provider
response does not surface the provider's status code as the HTTP status;
the handler's own `HTTPException(404, ...)` is swallowed by the blanket
`except Exception` and re-raised as a 500 whose detail embeds
`str(HTTPException)` — i.e. the provider's status code and body survive
only inside the detail text. -/
theorem sarvam_non200_wrapped_into_500 :
    speech_to_text (some "test-key") (.ok ⟨404, "Not found", none, none⟩) =
      .error ⟨500, "Failed to convert speech to text: 404: Sarvam API error: Not found"⟩ :=
  rfl
